import Mathlib

/-!
Verification of the seat-selection widget of the AirlinePoc frontend.

This file gives a shallow embedding of the seat-selection controller of
`src/frontend/src/pages/ReservationConfirmationPage.jsx`, the gateway
normalization of `src/frontend/src/apiClient.js`, and the presentation
logic of `src/frontend/src/components/SeatMap.jsx`, and proves the
behavioural properties of the specification against it.

Modelling conventions:
* React `useState` cells of the page component become fields of `PageState`.
  Display-only state (payment flow, refresh counter, formatted labels) is
  omitted: no seat-selection logic reads it.
* JavaScript `String.prototype.trim` / `toUpperCase` are modelled at the
  character-list level (`jsTrim`, `jsToUpper`), `Array.from(new Set(...))`
  insertion-order deduplication as `jsSetDedup`, and `Array.prototype.sort`
  as an insertion sort under code-unit lexicographic order (`jsSort`).
* An `async` handler is split at its `await`: the synchronous prefix up to
  the network call (`confirmBegin`) and the continuation that consumes the
  settled promise (`confirmFinish`).  The network outcome is passed in as
  an explicit value (`SeatUpdateOutcome`, `LoadOutcome`).
* JSON fields that can be absent (`undefined`/`null`) are `Option`s; the
  JS `??` operator becomes `Option.getD` / `Option.orElse`.
-/

/-! ## JavaScript string primitives -/

/-- Model of JavaScript `String.prototype.toUpperCase` (character-wise
upcasing; seat identifiers are ASCII). -/
def jsToUpper (s : String) : String := ⟨s.data.map Char.toUpper⟩

/-- Model of JavaScript `String.prototype.trim`: drop leading and trailing
whitespace. -/
def jsTrim (s : String) : String :=
  ⟨((s.data.dropWhile Char.isWhitespace).reverse.dropWhile Char.isWhitespace).reverse⟩

/-- Model of `String(seat).trim().toUpperCase()` — the seat-identifier normalization
used by both `ReservationConfirmationPage.jsx` and `apiClient.js`. -/
def jsNormalizeSeat (s : String) : String := jsToUpper (jsTrim s)

/-- One insertion into a JS `Set` (keeps the first occurrence). -/
def jsSetDedupStep (acc : List String) (x : String) : List String :=
  if x ∈ acc then acc else acc ++ [x]

/-- Model of `Array.from(new Set(xs))`: deduplication keeping the first
occurrence, in insertion order. -/
def jsSetDedup (xs : List String) : List String :=
  xs.foldl jsSetDedupStep []

/-- Code-unit comparison underlying JavaScript's default `Array.sort`. -/
def charListLe : List Char → List Char → Bool
  | [], _ => true
  | _ :: _, [] => false
  | a :: as, b :: bs =>
    if a.toNat < b.toNat then true
    else if b.toNat < a.toNat then false
    else charListLe as bs

/-- Lexicographic string order used by JavaScript's default `Array.sort`. -/
def jsStringLe (a b : String) : Bool := charListLe a.data b.data

/-- Model of JavaScript `Array.prototype.sort()` on strings. -/
def jsSort (xs : List String) : List String :=
  List.insertionSort (fun a b => jsStringLe a b = true) xs

/-! ## Data model (normalized reservation, from `apiClient.js`) -/

/-- One seat of the declarative seat map (`SeatMap.jsx` reads `id`,
`status` and `type`; traits and display label are presentation-only). -/
structure Seat where
  id : String
  status : String
  seatType : String
deriving DecidableEq, Repr

structure SeatRow where
  id : String
  label : String
  seats : List Seat
deriving DecidableEq, Repr

structure SeatSection where
  id : String
  label : String
  rows : List SeatRow
deriving DecidableEq, Repr

structure SeatMapMeta where
  availableSeats : Option Nat
  bookedSeats : Option Nat
deriving DecidableEq, Repr

/-- The declarative cabin layout passed through from the gateway. -/
structure SeatMapData where
  sections : List SeatSection
  meta : SeatMapMeta
deriving DecidableEq, Repr

structure Passenger where
  name : Option String
  email : Option String
deriving DecidableEq, Repr

/-- The `seatSelection` record produced by `normalizeReservationPayload`. -/
structure SeatSelection where
  selectedSeats : List String
  updatedAt : Option String
deriving DecidableEq, Repr

/-- The normalized reservation object produced by
`normalizeReservationPayload` (`apiClient.js` lines 60–105).  Fields
irrelevant to seat selection (`bill`, `flight`, `raw`, prices) are omitted.
`seatSelection` and `selectedSeats` are `Option`s because the page also
accepts preloaded reservation objects and guards both reads with `?.`/`??`. -/
structure Reservation where
  reservationId : Option String
  seatClass : Option String
  passengerCount : Option Nat
  bookedAt : Option String
  passengers : List Passenger
  seatMap : Option SeatMapData
  seatSelection : Option SeatSelection
  selectedSeats : Option (List String)
deriving DecidableEq, Repr

/-- Model of `reservation.seatSelection?.selectedSeats ?? reservation.selectedSeats ?? []`
— the expression used both to snapshot the server-confirmed seats in
`handleSeatConfirm` and to initialize `selectedSeats` in `loadReservation`. -/
def serverSeats (r : Reservation) : List String :=
  match r.seatSelection with
  | some ss => ss.selectedSeats
  | none => r.selectedSeats.getD []

/-! ## Gateway payloads and normalization (`apiClient.js`) -/

/-- The `container?.seat_selection` record of a gateway payload.  The source accepts
either spelling `selected_seats` / `selectedSeats`; both are modelled by the
single field `selected_seats`.  Entries may be `null`/`undefined` (`Option`). -/
structure RawSeatSelection where
  selected_seats : Option (List (Option String))
  updated_at : Option String
deriving DecidableEq, Repr

/-- The `container?.reservation` record of a gateway payload (the fields
`normalizeReservationPayload` reads). -/
structure RawReservation where
  reservation_id : Option String
  seat_class : Option String
  passenger_count : Option Nat
  booked_at : Option String
  passengers : Option (List Passenger)
  seat_assignments : Option (List (Option String))
  seat_assignments_updated_at : Option String
deriving DecidableEq, Repr

/-- A gateway response envelope (`response.data`, with
`container = value?.data ?? value` already flattened). -/
structure RawEnvelope where
  ok : Bool
  message : Option String
  code : Option String
  reservation : Option RawReservation
  seat_selection : Option RawSeatSelection
  seat_map : Option SeatMapData
deriving DecidableEq, Repr

/-- Model of `container?.reservation` falling back to the empty JS object. -/
def emptyRawReservation : RawReservation :=
  { reservation_id := none, seat_class := none, passenger_count := none
    booked_at := none, passengers := none, seat_assignments := none
    seat_assignments_updated_at := none }

/-- Model of `container?.seat_selection` falling back to the empty JS object. -/
def emptyRawSeatSelection : RawSeatSelection :=
  { selected_seats := none, updated_at := none }

/-- The seat-list cleanup shared by `normalizeReservationPayload` and
`updateReservationSeatSelection`: drop `null`/`undefined` entries, trim and
uppercase, drop entries that became empty, deduplicate preserving first
occurrence (`apiClient.js` lines 74–81 and 190–197). -/
def normalizeSeatList (xs : List (Option String)) : List String :=
  jsSetDedup (((xs.filterMap id).map jsNormalizeSeat).filter (fun s => s ≠ ""))

/-- Model of `normalizeReservationPayload` (`apiClient.js` lines 60–105), restricted
to the seat-selection-relevant fields. -/
def normalizeReservationPayload (env : RawEnvelope) : Reservation :=
  let reservation := env.reservation.getD emptyRawReservation
  let seatSelectionRaw := env.seat_selection.getD emptyRawSeatSelection
  let fromReservation := reservation.seat_assignments.getD []
  let normalizedSeats := seatSelectionRaw.selected_seats.getD fromReservation
  let selectedSeats := normalizeSeatList normalizedSeats
  { reservationId := reservation.reservation_id
    seatClass := reservation.seat_class
    passengerCount := reservation.passenger_count
    bookedAt := reservation.booked_at
    passengers := reservation.passengers.getD []
    seatMap := env.seat_map
    seatSelection := some
      { selectedSeats := selectedSeats
        updatedAt :=
          seatSelectionRaw.updated_at.orElse
            (fun _ => reservation.seat_assignments_updated_at) }
    selectedSeats := some selectedSeats }

/-- A typed gateway failure (the `Error` objects built in `apiClient.js`). -/
structure GatewayError where
  message : String
  code : String
deriving DecidableEq, Repr

/-- Model of `fetchReservationById` (`apiClient.js` lines 141–181): envelope-level
behaviour.  The gateway response envelope is passed in as a value; the
HTTP-transport branch (`error.response`) is subsumed by quantifying page
theorems over arbitrary failure messages. -/
def fetchReservationById (reservationId : String) (env : RawEnvelope) :
    Except GatewayError Reservation :=
  if reservationId = "" then
    .error { message := "Reservation ID is required.", code := "RESERVATION_ID_REQUIRED" }
  else if env.ok then
    .ok (normalizeReservationPayload env)
  else
    .error
      { message := env.message.getD "Unable to load the reservation details right now."
        code := env.code.getD "RESERVATION_FETCH_FAILED" }

/-- The request body list of `updateReservationSeatSelection`
(`apiClient.js` lines 190–197): the page-supplied seat array, trimmed,
uppercased, emptied entries dropped, deduplicated. -/
def submittedSeatList (seats : List String) : List String :=
  jsSetDedup ((seats.map jsNormalizeSeat).filter (fun s => s ≠ ""))

/-- Model of `updateReservationSeatSelection` (`apiClient.js` lines 183–234).
The first component is the `selected_seats` list actually sent on the wire
(`none` when the guard threw before any request was issued). -/
def updateReservationSeatSelection (reservationId : String) (seats : List String)
    (env : RawEnvelope) : Option (List String) × Except GatewayError Reservation :=
  if reservationId = "" then
    (none, .error { message := "Reservation ID is required.", code := "RESERVATION_ID_REQUIRED" })
  else
    let normalizedSeats := submittedSeatList seats
    if env.ok then
      (some normalizedSeats, .ok (normalizeReservationPayload env))
    else
      (some normalizedSeats,
        .error
          { message := env.message.getD "Unable to update seat selection right now."
            code := env.code.getD "SEAT_SELECTION_UPDATE_FAILED" })

/-! ## Page state (`ReservationConfirmationPage.jsx`) -/

/-- The seat-selection-relevant `useState` cells of
`ReservationConfirmationPage` plus the route-derived `reservationId`. -/
structure PageState where
  reservationId : String
  reservation : Option Reservation
  loading : Bool
  error : String
  seatMap : Option SeatMapData
  selectedSeats : List String
  seatSelectionUpdatedAt : String
  seatSyncError : String
  isSyncingSeats : Bool
  isSeatModalOpen : Bool
deriving DecidableEq, Repr

/-- Model of `(Array.isArray(reservation.passengers) && reservation.passengers.length) || 1`
(`ReservationConfirmationPage.jsx` lines 310–311 and 343–344): `0 || 1 = 1`. -/
def fallbackPassengerCount (r : Reservation) : Nat :=
  if r.passengers.length = 0 then 1 else r.passengers.length

/-- Model of `Math.max(1, reservation.passengerCount ?? fallbackPassengerCount)`
(lines 312–315 and 345–348). -/
def maxSelectable (r : Reservation) : Nat :=
  max 1 (r.passengerCount.getD (fallbackPassengerCount r))

/-- The capacity error text set by `handleSeatToggle` (line 325). -/
def limitErrorMessage (n : Nat) : String :=
  "You can select up to " ++ toString n ++ " seat" ++ (if n = 1 then "" else "s") ++ "."

/-- Model of `handleSeatToggle` (`ReservationConfirmationPage.jsx` lines 302–332). -/
def handleSeatToggle (st : PageState) (seatId : String) : PageState :=
  match st.reservation with
  | none => st
  | some r =>
    if seatId = "" ∨ st.isSyncingSeats then st
    else
      let normalized := jsNormalizeSeat seatId
      if normalized = "" then st
      else if normalized ∈ st.selectedSeats then
        { st with seatSyncError := ""
                  selectedSeats := st.selectedSeats.filter (fun seat => seat ≠ normalized) }
      else if st.selectedSeats.length ≥ maxSelectable r then
        { st with seatSyncError := limitErrorMessage (maxSelectable r) }
      else
        { st with seatSyncError := ""
                  selectedSeats := st.selectedSeats ++ [normalized] }

/-- The guard message set when `handleSeatConfirm` runs without a
reservation (line 336). -/
def reservationRequiredMessage : String :=
  "Reservation information is required before selecting seats."

/-- The generic save-failure message of `handleSeatConfirm` (line 376). -/
def couldNotSaveMessage : String :=
  "We could not save your seat selection. Please try again."

/-- The synchronous prefix of `handleSeatConfirm`
(`ReservationConfirmationPage.jsx` lines 334–358): guards, computation of
the trimmed seat list, and entry into the syncing state.  The second
component is the list passed to `updateReservationSeatSelection`
(`none` when the handler returned before issuing the network call). -/
def confirmBegin (st : PageState) (seatIds : Option (List String)) :
    PageState × Option (List String) :=
  match st.reservation with
  | none => ({ st with seatSyncError := reservationRequiredMessage }, none)
  | some r =>
    if st.reservationId = "" then
      ({ st with seatSyncError := reservationRequiredMessage }, none)
    else if st.isSyncingSeats then (st, none)
    else
      let seatsToPersist := seatIds.getD st.selectedSeats
      let m := maxSelectable r
      let trimmedSeats :=
        if seatsToPersist.length > m then seatsToPersist.take m else seatsToPersist
      ({ st with isSyncingSeats := true, seatSyncError := "" }, some trimmedSeats)

/-- The outcome of the awaited `updateReservationSeatSelection` call as seen
by the page: either the normalized reservation, or a rejection whose
optional `message` models `err?.message`. -/
inductive SeatUpdateOutcome where
  | ok (updated : Reservation)
  | err (message : Option String)
deriving DecidableEq, Repr

/-- The continuation of `handleSeatConfirm` after the awaited gateway call
(`ReservationConfirmationPage.jsx` lines 360–381): success reconciliation,
failure rollback, and the `finally` block. -/
def confirmFinish (st : PageState) (trimmedSeats prevServerSeats : List String)
    (outcome : SeatUpdateOutcome) : PageState :=
  match outcome with
  | .ok updated =>
    { st with
      reservation := some updated
      seatMap := updated.seatMap
      selectedSeats :=
        match updated.seatSelection with
        | some ss => ss.selectedSeats
        | none => updated.selectedSeats.getD trimmedSeats
      seatSelectionUpdatedAt := (updated.seatSelection.bind SeatSelection.updatedAt).getD ""
      seatSyncError := ""
      isSeatModalOpen := false
      isSyncingSeats := false }
  | .err message =>
    { st with
      seatSyncError := message.getD couldNotSaveMessage
      selectedSeats := prevServerSeats
      isSyncingSeats := false }

/-- The whole of `handleSeatConfirm` (lines 334–382), with the settled
outcome of the single awaited gateway call supplied as a value.
`previousServerSeats` (lines 354–355) is captured from the pre-call
reservation, exactly as the closure does. -/
def handleSeatConfirm (st : PageState) (seatIds : Option (List String))
    (outcome : SeatUpdateOutcome) : PageState :=
  match confirmBegin st seatIds with
  | (stMid, none) => stMid
  | (stMid, some trimmedSeats) =>
    let prevServerSeats :=
      match st.reservation with
      | some r => serverSeats r
      | none => []
    confirmFinish stMid trimmedSeats prevServerSeats outcome

/-- What `handleSeatConfirm` puts on the wire: the trimmed list of
`confirmBegin` after the normalization inside
`updateReservationSeatSelection`; `none` when no request is issued. -/
def confirmSubmission (st : PageState) (seatIds : Option (List String)) :
    Option (List String) :=
  (confirmBegin st seatIds).2.map submittedSeatList

/-! ## Reservation loading (`loadReservation`, lines 138–206) -/

/-- The settled result of the awaited `fetchReservationById` call as seen by
the page: the normalized reservation, or a rejection whose optional
`message` models `err?.message`. -/
inductive LoadOutcome where
  | ok (normalized : Reservation)
  | err (message : Option String)
deriving DecidableEq, Repr

/-- The generic fetch-failure message of `loadReservation` (lines 165–167). -/
def couldNotLoadMessage : String :=
  "Unable to retrieve the reservation at this time. Please try again later."

/-- The state effects of a completed `loadReservation` invocation
(`ReservationConfirmationPage.jsx` lines 151–178).  `cancelled` is the
per-invocation cancellation flag of the enclosing effect (line 139), set to
`true` by the effect cleanup (lines 203–205) when a newer load starts or the
page unmounts; every `setState` after the `await` is guarded by it. -/
def applyLoadResult (st : PageState) (cancelled : Bool) (outcome : LoadOutcome) :
    PageState :=
  if cancelled then st
  else
    match outcome with
    | .ok normalized =>
      { st with
        reservation := some normalized
        error := ""
        seatMap := normalized.seatMap
        selectedSeats := serverSeats normalized
        seatSelectionUpdatedAt := (normalized.seatSelection.bind SeatSelection.updatedAt).getD ""
        seatSyncError := ""
        loading := false }
    | .err message =>
      { st with
        error := message.getD couldNotLoadMessage
        reservation := none
        seatMap := none
        selectedSeats := []
        seatSelectionUpdatedAt := ""
        loading := false }

/-- A full `loadReservation` round trip through `fetchReservationById`
against the envelope the server answers with. -/
def runLoadReservation (st : PageState) (cancelled : Bool) (env : RawEnvelope) :
    PageState :=
  match fetchReservationById st.reservationId env with
  | .ok normalized => applyLoadResult st cancelled (.ok normalized)
  | .error e => applyLoadResult st cancelled (.err (some e.message))

/-! ## Seat-map presentation (`SeatMap.jsx`) -/

/-- The `sortedSelected` value of the `SeatMap` component (lines 182–184 and 212–215):
the selected-seat identifiers, uppercased, deduplicated by the `Set`, and
sorted for display. -/
def sortedSelectedOf (selectedSeats : List String) : List String :=
  jsSort (jsSetDedup (selectedSeats.map jsToUpper))

/-- The `disabled` condition `isSyncing || !sortedSelected.length` of the footer confirm
button (`SeatMap.jsx` line 322). -/
def footerConfirmDisabled (isSyncing : Bool) (sortedSelected : List String) : Bool :=
  isSyncing || sortedSelected.isEmpty

/-- The `disabled` condition `!selectedSeatIds.length || isSyncing` of the dialog confirm
button (`SeatMap.jsx` line 163). -/
def dialogConfirmDisabled (selectedSeatIds : List String) (isSyncing : Bool) : Bool :=
  selectedSeatIds.isEmpty || isSyncing

/-- The seat list a click on the dialog's confirm button hands to
`onConfirm` (`SeatMap.jsx` line 162); `none` when the button is disabled
and cannot fire. -/
def dialogConfirmIntent (selectedSeatIds : List String) (isSyncing : Bool) :
    Option (List String) :=
  if dialogConfirmDisabled selectedSeatIds isSyncing then none else some selectedSeatIds

/-- Model of `handleSeatClick` (`SeatMap.jsx` lines 189–198): the identifier passed
to `onSeatToggle`, or `none` when the click is swallowed (syncing, no
handler, or a non-available seat that is not currently selected). -/
def handleSeatClick (isSyncing : Bool) (hasToggleHandler : Bool)
    (selectedSeatIds : List String) (seat : Seat) : Option String :=
  if isSyncing ∨ hasToggleHandler = false then none
  else
    let normalized := jsToUpper seat.id
    if seat.status ≠ "available" ∧ normalized ∉ selectedSeatIds then none
    else some normalized

/-! ## Helper lemmas -/

theorem mem_foldl_jsSetDedupStep (xs : List String) (acc : List String) (y : String)
    (h : y ∈ xs.foldl jsSetDedupStep acc) : y ∈ acc ∨ y ∈ xs := by
  induction xs generalizing acc with
  | nil => exact Or.inl h
  | cons a as ih =>
    simp only [List.foldl_cons] at h
    rcases ih (jsSetDedupStep acc a) h with hacc | hxs
    · unfold jsSetDedupStep at hacc
      split at hacc
      · exact Or.inl hacc
      · rcases List.mem_append.mp hacc with h1 | h1
        · exact Or.inl h1
        · simp only [List.mem_singleton] at h1
          exact Or.inr (h1 ▸ List.mem_cons_self a as)
    · exact Or.inr (List.mem_cons_of_mem a hxs)

theorem nodup_foldl_jsSetDedupStep (xs : List String) (acc : List String)
    (h : acc.Nodup) : (xs.foldl jsSetDedupStep acc).Nodup := by
  induction xs generalizing acc with
  | nil => exact h
  | cons a as ih =>
    simp only [List.foldl_cons]
    apply ih
    unfold jsSetDedupStep
    split
    · exact h
    · rename_i hx
      simp [List.nodup_append, h, hx]

theorem jsSetDedup_subset (xs : List String) (y : String) (h : y ∈ jsSetDedup xs) :
    y ∈ xs := by
  rcases mem_foldl_jsSetDedupStep xs [] y h with h1 | h1
  · cases h1
  · exact h1

theorem jsSetDedup_nodup (xs : List String) : (jsSetDedup xs).Nodup :=
  nodup_foldl_jsSetDedupStep xs [] List.nodup_nil

theorem handleSeatToggle_reservation_eq (st : PageState) (s : String) :
    (handleSeatToggle st s).reservation = st.reservation := by
  unfold handleSeatToggle
  cases hr : st.reservation with
  | none => exact hr
  | some r =>
    dsimp only
    split_ifs <;> simp [hr]

theorem handleSeatToggle_length_le (st : PageState) (r : Reservation) (s : String)
    (hr : st.reservation = some r) (hb : st.selectedSeats.length ≤ maxSelectable r) :
    (handleSeatToggle st s).selectedSeats.length ≤ maxSelectable r := by
  unfold handleSeatToggle
  rw [hr]
  dsimp only
  split_ifs with h1 h2 h3 h4
  · exact hb
  · exact hb
  · exact le_trans (List.length_filter_le _ _) hb
  · exact hb
  · simp only [List.length_append, List.length_singleton]
    omega

theorem foldl_handleSeatToggle_length_le (ids : List String) (st : PageState)
    (r : Reservation) (hr : st.reservation = some r)
    (hb : st.selectedSeats.length ≤ maxSelectable r) :
    (ids.foldl handleSeatToggle st).selectedSeats.length ≤ maxSelectable r := by
  induction ids generalizing st with
  | nil => exact hb
  | cons a as ih =>
    simp only [List.foldl_cons]
    exact ih _ ((handleSeatToggle_reservation_eq st a).trans hr)
      (handleSeatToggle_length_le st r a hr hb)

/-! ## Claim theorems -/

/-- C1: for every reservation with passenger count `P ≥ 1`, no sequence of
`toggleSeat` calls lets `|SelectedSeats|` exceed `max(1, P)`; a toggle that
would exceed the limit leaves the whole state unchanged except for setting
the error message "You can select up to N seat(s)." with singular/plural
agreeing with N. -/
theorem toggleSeat_respects_selection_limit (st : PageState) (r : Reservation) (P : Nat)
    (hr : st.reservation = some r) (hP : r.passengerCount = some P) (hP1 : 1 ≤ P)
    (hb : st.selectedSeats.length ≤ max 1 P) :
    (∀ ids : List String, (ids.foldl handleSeatToggle st).selectedSeats.length ≤ max 1 P)
    ∧ (∀ seatId : String, st.isSyncingSeats = false →
        jsNormalizeSeat seatId ≠ "" →
        jsNormalizeSeat seatId ∉ st.selectedSeats →
        max 1 P ≤ st.selectedSeats.length →
        handleSeatToggle st seatId =
          { st with seatSyncError :=
              "You can select up to " ++ toString (max 1 P) ++ " seat" ++
                (if max 1 P = 1 then "" else "s") ++ "." }) := by
  have hmax : maxSelectable r = max 1 P := by simp [maxSelectable, hP]
  constructor
  · intro ids
    rw [← hmax] at hb ⊢
    exact foldl_handleSeatToggle_length_le ids st r hr hb
  · intro seatId hsync hne hmem hfull
    have hid : seatId ≠ "" := by
      intro h
      exact hne (by rw [h]; rfl)
    unfold handleSeatToggle
    rw [hr]
    dsimp only
    rw [if_neg (by simp [hid, hsync]), if_neg hne, if_neg hmem,
      if_pos (by rw [hmax]; exact hfull)]
    rw [hmax]
    rfl

/-- A two-passenger reservation with seats 12A and 12B confirmed. -/
def twoPassengerReservation : Reservation :=
  { reservationId := some "RSV-1", seatClass := some "economy"
    passengerCount := some 2, bookedAt := none
    passengers := [{ name := some "A", email := none }, { name := some "B", email := none }]
    seatMap := none
    seatSelection := some { selectedSeats := ["12A", "12B"], updatedAt := none }
    selectedSeats := some ["12A", "12B"] }

/-- Page state for spec scenario 7: P = 2, both seats already selected. -/
def fullSelectionState : PageState :=
  { reservationId := "RSV-1", reservation := some twoPassengerReservation
    loading := false, error := "", seatMap := none
    selectedSeats := ["12A", "12B"], seatSelectionUpdatedAt := ""
    seatSyncError := "", isSyncingSeats := false, isSeatModalOpen := false }

/-- Witness for C1: in scenario 7 (P = 2, seats 12A and 12B selected), any
toggle sequence keeps at most two seats, and toggling " 14c " is rejected
with the plural limit message, all other state unchanged. -/
theorem toggleSeat_respects_selection_limit_witness :
    ((["12A", "14C", "12B"].foldl handleSeatToggle fullSelectionState).selectedSeats.length
        ≤ max 1 2)
    ∧ handleSeatToggle fullSelectionState " 14c " =
        { fullSelectionState with seatSyncError := "You can select up to 2 seats." } := by
  have h := toggleSeat_respects_selection_limit fullSelectionState twoPassengerReservation 2
    rfl rfl (by decide) (by decide)
  refine ⟨h.1 ["12A", "14C", "12B"], ?_⟩
  have h2 := h.2 " 14c " rfl (by decide) (by decide) (by decide)
  exact h2.trans (by decide)

/-- C6: toggling a seat whose normalized identifier is already in
SelectedSeats always removes it (the Lean statement nowhere constrains the
seat's server-reported status) and clears any standing limit-error message;
moreover the seat-map click handler forwards clicks on already-selected
seats to the toggle regardless of the seat's `status`. -/
theorem toggleSeat_removes_already_selected (st : PageState) (r : Reservation)
    (seatId : String) (hr : st.reservation = some r) (hsync : st.isSyncingSeats = false)
    (hne : jsNormalizeSeat seatId ≠ "") (hmem : jsNormalizeSeat seatId ∈ st.selectedSeats) :
    (handleSeatToggle st seatId).selectedSeats
        = st.selectedSeats.filter (fun seat => seat ≠ jsNormalizeSeat seatId)
    ∧ jsNormalizeSeat seatId ∉ (handleSeatToggle st seatId).selectedSeats
    ∧ (handleSeatToggle st seatId).seatSyncError = ""
    ∧ (∀ (seat : Seat) (sel : List String), jsToUpper seat.id ∈ sel →
        handleSeatClick false true sel seat = some (jsToUpper seat.id)) := by
  have hid : seatId ≠ "" := by
    intro h
    exact hne (by rw [h]; rfl)
  have hstep : handleSeatToggle st seatId =
      { st with seatSyncError := ""
                selectedSeats :=
                  st.selectedSeats.filter (fun seat => seat ≠ jsNormalizeSeat seatId) } := by
    unfold handleSeatToggle
    rw [hr]
    dsimp only
    rw [if_neg (by simp [hid, hsync]), if_neg hne, if_pos hmem]
  refine ⟨by rw [hstep], ?_, by rw [hstep], ?_⟩
  · rw [hstep]
    simp
  · intro seat sel hclick
    unfold handleSeatClick
    rw [if_neg (by simp)]
    dsimp only
    rw [if_neg (by simp [hclick])]

/-- Witness for C6: with 12A selected and reported "booked" by the server,
clicking it still reaches the toggle and toggling removes it. -/
theorem toggleSeat_removes_already_selected_witness :
    (handleSeatToggle fullSelectionState " 12a ").selectedSeats = ["12B"]
    ∧ handleSeatClick false true ["12A", "12B"]
        { id := "12a", status := "booked", seatType := "window" } = some "12A" := by
  have h := toggleSeat_removes_already_selected fullSelectionState twoPassengerReservation
    " 12a " rfl rfl (by decide) (by decide)
  refine ⟨h.1.trans (by decide), ?_⟩
  have h2 := h.2.2.2 { id := "12a", status := "booked", seatType := "window" }
    ["12A", "12B"] (by decide)
  exact h2.trans (by decide)

/-- A reservation whose server-confirmed selection is just 1A. -/
def serverSeatReservation : Reservation :=
  { reservationId := some "RSV-2", seatClass := none
    passengerCount := some 2, bookedAt := none
    passengers := []
    seatMap := none
    seatSelection := some { selectedSeats := ["1A"], updatedAt := none }
    selectedSeats := some ["1A"] }

/-- Page state where the local selection (1A, 2B) has drifted ahead of the
server-confirmed selection (1A). -/
def driftedSelectionState : PageState :=
  { reservationId := "RSV-2", reservation := some serverSeatReservation
    loading := false, error := "", seatMap := none
    selectedSeats := ["1A", "2B"], seatSelectionUpdatedAt := ""
    seatSyncError := "", isSyncingSeats := false, isSeatModalOpen := false }

/-- Counterexample to C2 as stated: when the local selection (1A, 2B) has
drifted ahead of the server-confirmed selection (1A) and the update call
rejects, SelectedSeats afterwards is the server snapshot (1A), not the value
SelectedSeats had immediately before the call began (1A, 2B). -/
theorem confirm_rollback_not_to_precall_selection :
    (handleSeatConfirm driftedSelectionState none
        (.err (some "Server rejected the update."))).selectedSeats
      ≠ driftedSelectionState.selectedSeats := by decide

/-- C2 (amended): on rejection of the seat-update call, SelectedSeats is
rolled back to the reservation's last server-confirmed seat list (the
snapshot `reservation.seatSelection?.selectedSeats ?? reservation.selectedSeats ?? []`),
the sync flag is dropped, and the error message is set to the failure's
message, falling back to a generic could-not-save message when the failure
carries none; that message is non-empty unless the failure's message is
itself the empty string. -/
theorem confirm_rejection_rolls_back_to_server_seats (st : PageState) (r : Reservation)
    (seatIds : Option (List String)) (m : Option String)
    (hr : st.reservation = some r) (hrid : st.reservationId ≠ "")
    (hsync : st.isSyncingSeats = false) :
    handleSeatConfirm st seatIds (.err m) =
      { st with selectedSeats := serverSeats r
                seatSyncError := m.getD couldNotSaveMessage
                isSyncingSeats := false }
    ∧ (m ≠ some "" → (handleSeatConfirm st seatIds (.err m)).seatSyncError ≠ "") := by
  have hmain : handleSeatConfirm st seatIds (.err m) =
      { st with selectedSeats := serverSeats r
                seatSyncError := m.getD couldNotSaveMessage
                isSyncingSeats := false } := by
    unfold handleSeatConfirm confirmBegin
    rw [hr]
    dsimp only
    rw [if_neg hrid, if_neg (by simp [hsync])]
    rfl
  refine ⟨hmain, fun hm => ?_⟩
  rw [hmain]
  dsimp only
  cases m with
  | none => decide
  | some s =>
    simp only [Option.getD_some]
    intro h
    exact hm (by rw [h])

/-- Witness for the amended C2: from the drifted state, a rejection with
message "Server rejected the update." rolls SelectedSeats back to the
server snapshot 1A and surfaces that message. -/
theorem confirm_rejection_rolls_back_to_server_seats_witness :
    handleSeatConfirm driftedSelectionState none (.err (some "Server rejected the update.")) =
      { driftedSelectionState with
          selectedSeats := ["1A"]
          seatSyncError := "Server rejected the update."
          isSyncingSeats := false }
    ∧ (handleSeatConfirm driftedSelectionState none
        (.err (some "Server rejected the update."))).seatSyncError ≠ "" := by
  have h := confirm_rejection_rolls_back_to_server_seats driftedSelectionState
    serverSeatReservation none (some "Server rejected the update.") rfl (by decide) rfl
  exact ⟨h.1.trans (by decide), h.2 (by decide)⟩

/-- C3: when the seat-update call succeeds with a gateway-normalized
reservation, the page adopts the server state wholesale: SelectedSeats
becomes exactly the server-returned selection (the right-hand side does not
mention the submitted list), the reservation, seat map and last-updated
timestamp are replaced by the returned values, the confirmation dialog is
closed, and the error message is cleared. -/
theorem confirm_success_adopts_server_state (st : PageState) (r : Reservation)
    (seatIds : Option (List String)) (env : RawEnvelope)
    (hr : st.reservation = some r) (hrid : st.reservationId ≠ "")
    (hsync : st.isSyncingSeats = false) :
    handleSeatConfirm st seatIds (.ok (normalizeReservationPayload env)) =
      { st with
          reservation := some (normalizeReservationPayload env)
          seatMap := (normalizeReservationPayload env).seatMap
          selectedSeats := serverSeats (normalizeReservationPayload env)
          seatSelectionUpdatedAt :=
            ((normalizeReservationPayload env).seatSelection.bind
              SeatSelection.updatedAt).getD ""
          seatSyncError := ""
          isSeatModalOpen := false
          isSyncingSeats := false } := by
  unfold handleSeatConfirm confirmBegin
  rw [hr]
  dsimp only
  rw [if_neg hrid, if_neg (by simp [hsync])]
  rfl

/-- A success envelope whose server-side selection reconciles to 5A. -/
def reconciledEnvelope : RawEnvelope :=
  { ok := true, message := none, code := none
    reservation := some
      { reservation_id := some "RSV-2", seat_class := none, passenger_count := some 2
        booked_at := none, passengers := none
        seat_assignments := some [some "7C"]
        seat_assignments_updated_at := none }
    seat_selection := some
      { selected_seats := some [some "5a", some "5A"]
        updated_at := some "2024-01-01T00:00:00Z" }
    seat_map := none }

/-- Witness for C3: confirming the drifted state with submitted list 2B,
where the server answers with selection 5A, makes SelectedSeats exactly 5A
(not the submitted 2B), closes the dialog and clears the error. -/
theorem confirm_success_adopts_server_state_witness :
    handleSeatConfirm driftedSelectionState (some ["2B"])
        (.ok (normalizeReservationPayload reconciledEnvelope)) =
      { driftedSelectionState with
          reservation := some (normalizeReservationPayload reconciledEnvelope)
          seatMap := none
          selectedSeats := ["5A"]
          seatSelectionUpdatedAt := "2024-01-01T00:00:00Z"
          seatSyncError := ""
          isSeatModalOpen := false
          isSyncingSeats := false } := by
  have h := confirm_success_adopts_server_state driftedSelectionState
    serverSeatReservation (some ["2B"]) reconciledEnvelope rfl (by decide) rfl
  exact h.trans (by decide)

/-- C4: when the input seat list is longer than `max(1, P)`, the list put on
the wire is exactly the first `max(1, P)` entries, in the order given, after
the gateway's deduplication and trim/uppercase normalization. -/
theorem confirm_truncates_then_normalizes_submission (st : PageState) (r : Reservation)
    (seats : List String) (hr : st.reservation = some r) (hrid : st.reservationId ≠ "")
    (hsync : st.isSyncingSeats = false) (hlong : maxSelectable r < seats.length) :
    confirmSubmission st (some seats) =
      some (submittedSeatList (seats.take (maxSelectable r))) := by
  unfold confirmSubmission confirmBegin
  rw [hr]
  dsimp only
  rw [if_neg hrid, if_neg (by simp [hsync])]
  dsimp only [Option.getD_some]
  rw [if_pos hlong]
  rfl

/-- A single-passenger reservation with no confirmed seats. -/
def onePassengerReservation : Reservation :=
  { reservationId := some "RSV-3", seatClass := none
    passengerCount := some 1, bookedAt := none
    passengers := [{ name := some "A", email := none }]
    seatMap := none
    seatSelection := some { selectedSeats := [], updatedAt := none }
    selectedSeats := some [] }

/-- Page state for spec scenario 9: P = 1, nothing selected yet. -/
def onePassengerState : PageState :=
  { reservationId := "RSV-3", reservation := some onePassengerReservation
    loading := false, error := "", seatMap := none
    selectedSeats := [], seatSelectionUpdatedAt := ""
    seatSyncError := "", isSyncingSeats := false, isSeatModalOpen := false }

/-- Witness for C4 (spec scenario 9): confirming seats 3A, 3A, 3b with
P = 1 submits exactly the single normalized entry 3A. -/
theorem confirm_truncates_then_normalizes_submission_witness :
    confirmSubmission onePassengerState (some ["3A", "3A", "3b"]) = some ["3A"] := by
  have h := confirm_truncates_then_normalizes_submission onePassengerState
    onePassengerReservation ["3A", "3A", "3b"] rfl (by decide) rfl (by decide)
  exact h.trans (by decide)

theorem confirmBegin_issued_char (st : PageState) (seatIds : Option (List String))
    (seats : List String) (h : (confirmBegin st seatIds).2 = some seats) :
    (confirmBegin st seatIds).1 = { st with isSyncingSeats := true, seatSyncError := "" }
    ∧ st.reservation ≠ none ∧ st.reservationId ≠ "" ∧ st.isSyncingSeats = false := by
  unfold confirmBegin at h ⊢
  cases hr : st.reservation with
  | none =>
    rw [hr] at h
    simp at h
  | some r =>
    rw [hr] at h
    dsimp only at h ⊢
    by_cases hrid : st.reservationId = ""
    · rw [if_pos hrid] at h
      simp at h
    · rw [if_neg hrid] at h ⊢
      by_cases hsync : st.isSyncingSeats = true
      · rw [if_pos hsync] at h
        simp at h
      · rw [if_neg hsync] at h ⊢
        exact ⟨rfl, by simp, hrid, by simpa using hsync⟩

theorem confirmBegin_noop_while_syncing (st : PageState) (seatIds : Option (List String))
    (hres : st.reservation ≠ none) (hrid : st.reservationId ≠ "")
    (hsync : st.isSyncingSeats = true) :
    confirmBegin st seatIds = (st, none) := by
  unfold confirmBegin
  cases hr : st.reservation with
  | none => exact absurd hr hres
  | some r =>
    dsimp only
    rw [if_neg hrid, if_pos hsync]

/-- C5: at most one confirmation sync is in flight.  If a `confirmSelection`
call issues a network request (entering the syncing state), a second call
made while the first is still pending is a complete no-op: it changes no
state and issues no request, so two calls in direct succession perform
exactly one network seat-update call. -/
theorem confirm_at_most_one_inflight_call (st : PageState)
    (seatIds seatIds2 : Option (List String)) (seats : List String)
    (h : (confirmBegin st seatIds).2 = some seats) :
    confirmBegin (confirmBegin st seatIds).1 seatIds2 = ((confirmBegin st seatIds).1, none) := by
  obtain ⟨h1, hres, hrid, _⟩ := confirmBegin_issued_char st seatIds seats h
  rw [h1]
  exact confirmBegin_noop_while_syncing _ seatIds2 (by simpa using hres) hrid rfl

/-- Witness for C5: from the drifted state a first confirm issues a request;
a second confirm launched while it is pending changes nothing and issues
none. -/
theorem confirm_at_most_one_inflight_call_witness :
    confirmBegin (confirmBegin driftedSelectionState none).1 (some ["3C"]) =
      ((confirmBegin driftedSelectionState none).1, none) :=
  confirm_at_most_one_inflight_call driftedSelectionState none (some ["3C"])
    ["1A", "2B"] (by decide)

/-- C7: a reservation load whose per-invocation cancellation flag has been
set (because a newer load started or the page navigated away) has no effect
on any state field when it completes, so the final state after a superseded
load and its successor is exactly the successor's state, whatever the stale
load returned. -/
theorem superseded_load_has_no_state_effect (st : PageState) (o1 o2 : LoadOutcome) :
    applyLoadResult st true o1 = st
    ∧ applyLoadResult (applyLoadResult st true o1) false o2 = applyLoadResult st false o2 :=
  ⟨rfl, rfl⟩

/-- C8: when the reservation fetch fails on a non-ok envelope, the page
clears the seat map, the selected seats and the seat-selection timestamp,
discards the previously displayed reservation, and sets the error to the
gateway-provided message, falling back to the gateway's generic fetch
message when the envelope carries none. -/
theorem load_failure_clears_seat_state (st : PageState) (env : RawEnvelope)
    (hrid : st.reservationId ≠ "") (hok : env.ok = false) :
    runLoadReservation st false env =
      { st with
          error := env.message.getD "Unable to load the reservation details right now."
          reservation := none
          seatMap := none
          selectedSeats := []
          seatSelectionUpdatedAt := ""
          loading := false } := by
  unfold runLoadReservation fetchReservationById
  rw [if_neg hrid, hok]
  rfl

/-- Failing fetch envelope carrying code RESERVATION_FETCH_FAILED. -/
def failedFetchEnvelope : RawEnvelope :=
  { ok := false, message := some "The reservation service is unavailable."
    code := some "RESERVATION_FETCH_FAILED"
    reservation := none, seat_selection := none, seat_map := none }

/-- Witness for C8: a load of the drifted state failing with code
RESERVATION_FETCH_FAILED leaves SeatMap null, SelectedSeats empty and the
gateway's message surfaced. -/
theorem load_failure_clears_seat_state_witness :
    runLoadReservation driftedSelectionState false failedFetchEnvelope =
      { driftedSelectionState with
          error := "The reservation service is unavailable."
          reservation := none
          seatMap := none
          selectedSeats := []
          seatSelectionUpdatedAt := ""
          loading := false } := by
  have h := load_failure_clears_seat_state driftedSelectionState failedFetchEnvelope
    (by decide) rfl
  exact h.trans (by decide)

/-- C9: the seat-map widget cannot raise a confirm intent with an empty
seat list: both the footer confirm button and the dialog confirm button are
disabled whenever the (deduplicated, sorted) selected-seat set is empty or
a sync is in flight, and any list the dialog's confirm click hands to
`onConfirmSelection` is non-empty, produced outside a sync, and equal to
the sorted selected-seat set. -/
theorem seatmap_confirm_requires_nonempty_selection (selectedSeats : List String)
    (isSyncing : Bool) :
    ((sortedSelectedOf selectedSeats).isEmpty = true ∨ isSyncing = true →
      footerConfirmDisabled isSyncing (sortedSelectedOf selectedSeats) = true
      ∧ dialogConfirmDisabled (sortedSelectedOf selectedSeats) isSyncing = true)
    ∧ (dialogConfirmIntent (sortedSelectedOf selectedSeats) isSyncing ≠ none →
        sortedSelectedOf selectedSeats ≠ []
        ∧ isSyncing = false
        ∧ dialogConfirmIntent (sortedSelectedOf selectedSeats) isSyncing
            = some (sortedSelectedOf selectedSeats)) := by
  constructor
  · rintro (h | h) <;>
      constructor <;> simp [footerConfirmDisabled, dialogConfirmDisabled, h]
  · intro h
    unfold dialogConfirmIntent at h ⊢
    by_cases hd : dialogConfirmDisabled (sortedSelectedOf selectedSeats) isSyncing = true
    · rw [if_pos hd] at h
      exact absurd rfl h
    · rw [if_neg hd] at h ⊢
      unfold dialogConfirmDisabled at hd
      simp only [Bool.or_eq_true, not_or, Bool.not_eq_true, List.isEmpty_eq_false] at hd
      exact ⟨List.ne_nil_of_mem (List.exists_mem_of_ne_nil _ hd.1).choose_spec, hd.2, rfl⟩

/-- Witness for C9: with nothing selected both confirm buttons are disabled,
and with seat 3a selected (not syncing) the dialog click carries the
non-empty normalized list. -/
theorem seatmap_confirm_requires_nonempty_selection_witness :
    (footerConfirmDisabled false (sortedSelectedOf ([] : List String)) = true
      ∧ dialogConfirmDisabled (sortedSelectedOf ([] : List String)) false = true)
    ∧ (sortedSelectedOf ["3a"] ≠ []
        ∧ false = false
        ∧ dialogConfirmIntent (sortedSelectedOf ["3a"]) false
            = some (sortedSelectedOf ["3a"])) :=
  ⟨(seatmap_confirm_requires_nonempty_selection [] false).1 (Or.inl (by decide)),
    (seatmap_confirm_requires_nonempty_selection ["3a"] false).2 (by decide)⟩

/-- C10: for every gateway payload, the normalized reservation's selected
seats are duplicate-free, every entry is non-empty and is the trim-and-
uppercase normalization of some entry of the payload's `seat_selection`
list when present (falling back to the reservation's `seat_assignments`),
the reservation's `selectedSeats` mirror equals that list, and a page
initialized from any successful load adopts exactly that list. -/
theorem normalized_reservation_seats_normal_form (env : RawEnvelope) :
    (serverSeats (normalizeReservationPayload env)).Nodup
    ∧ (normalizeReservationPayload env).selectedSeats
        = some (serverSeats (normalizeReservationPayload env))
    ∧ serverSeats (normalizeReservationPayload env)
        = normalizeSeatList
            ((env.seat_selection.getD emptyRawSeatSelection).selected_seats.getD
              ((env.reservation.getD emptyRawReservation).seat_assignments.getD []))
    ∧ (∀ s ∈ serverSeats (normalizeReservationPayload env),
        s ≠ "" ∧ ∃ t : String,
          some t ∈ (env.seat_selection.getD emptyRawSeatSelection).selected_seats.getD
              ((env.reservation.getD emptyRawReservation).seat_assignments.getD [])
          ∧ s = jsNormalizeSeat t)
    ∧ (∀ st : PageState,
        (applyLoadResult st false (.ok (normalizeReservationPayload env))).selectedSeats
          = serverSeats (normalizeReservationPayload env)) := by
  refine ⟨jsSetDedup_nodup _, rfl, rfl, ?_, fun st => rfl⟩
  intro s hs
  have h1 := jsSetDedup_subset _ s hs
  simp only [List.mem_filter, List.mem_map, List.mem_filterMap, id_eq,
    decide_eq_true_eq] at h1
  obtain ⟨⟨t, ⟨o, ho, hot⟩, hts⟩, hne⟩ := h1
  exact ⟨hne, t, by rwa [hot] at ho, hts.symm⟩

/-- An envelope whose seat-selection list holds duplicates (up to case),
a null entry, and a whitespace-only entry. -/
def dirtySelectionEnvelope : RawEnvelope :=
  { ok := true, message := none, code := none
    reservation := some
      { reservation_id := some "RSV-4", seat_class := none, passenger_count := some 1
        booked_at := none, passengers := none
        seat_assignments := some [some "9F"]
        seat_assignments_updated_at := none }
    seat_selection := some
      { selected_seats := some [some " 3a", some "3A", none, some "  "]
        updated_at := none }
    seat_map := none }

/-- Witness for C10: the dirty selection list normalizes to exactly the
single entry 3A, which is non-empty and the normalization of the payload
entry " 3a". -/
theorem normalized_reservation_seats_normal_form_witness :
    (serverSeats (normalizeReservationPayload dirtySelectionEnvelope)).Nodup
    ∧ serverSeats (normalizeReservationPayload dirtySelectionEnvelope) = ["3A"]
    ∧ ("3A" ≠ "" ∧ ∃ t : String,
        some t ∈ [some " 3a", some "3A", none, some "  "]
        ∧ "3A" = jsNormalizeSeat t) := by
  have h := normalized_reservation_seats_normal_form dirtySelectionEnvelope
  refine ⟨h.1, by decide, ?_⟩
  have h4 := h.2.2.2.1 "3A" (by decide)
  obtain ⟨hne, t, hmem, ht⟩ := h4
  exact ⟨hne, t, hmem, ht⟩
